import Mathlib

/-!
Shallow embedding of `api/sixtyfps-wasm-interpreter/src/lib.rs`, the wasm
binding layer of the sixtyfps interpreter: `compile_from_string`, the two
import-callback adapters it builds, the diagnostic-flattening error path,
and `register_font`.

JavaScript values crossing the boundary are modelled by an inductive
`JsValue`; a JS function call that may throw is `Except JsValue _`; an
awaited promise settles to `Except JsValue JsValue` (rejected / resolved).
A Rust `unwrap` on an `Err` is a panic, modelled as `Option.none` in the
result of the operation that performs it.

The external engine entry point `ComponentDefinition::from_source` is not
part of this file; theorems quantify over an arbitrary `CompileEngine`
function standing for it, so they hold for every engine behaviour.
-/

namespace SixtyfpsWasm

/-- A JavaScript value crossing the wasm boundary. Only the distinctions the
binding code observes are modelled: `as_string` succeeds exactly on `str`. -/
inductive JsValue where
  | undefined : JsValue
  | str : String → JsValue
  | num : Int → JsValue
  | obj : Nat → JsValue
deriving DecidableEq, Repr

/-- `JsValue::as_string()`: `some` exactly when the value is a JS string. -/
def JsValue.as_string : JsValue → Option String
  | .str s => some s
  | _ => none

/-- `std::io::ErrorKind`; the binding only ever constructs `Other`. -/
inductive IoErrorKind where
  | other : IoErrorKind
deriving DecidableEq, Repr

/-- A `std::io::Error` as constructed by the binding: a kind and a message. -/
structure IoError where
  kind : IoErrorKind
  message : String
deriving DecidableEq, Repr

/-- The host-supplied resolve-import callback (`js_sys::Function`): calling it
with a file name either throws (`Except.error`) or returns a `JsValue`. -/
def HostResolver : Type := String → Except JsValue JsValue

/-- The host-supplied load-import callback: calling it either throws
synchronously (outer `Except.error`) or returns a promise, which settles to
rejected or resolved (inner `Except JsValue JsValue`). -/
def HostLoader : Type := String → Except JsValue (Except JsValue JsValue)

/-- The `resolve_import_fallback` closure from `compile_from_string`:
`resolver_callback.call1(...).ok().and_then(|path_value| path_value.as_string())`. -/
def resolve_import_fallback (resolver_callback : HostResolver)
    (file_name : String) : Option String :=
  (resolver_callback file_name).toOption.bind JsValue.as_string

/-- The `open_import_fallback` closure from `compile_from_string`.
`load_callback.call1(...)` is the host call; `result.unwrap()` panics when the
call threw (`none`). Otherwise the promise is awaited: resolution yields
`Ok(js_ok.as_string().unwrap_or_default())`, rejection yields
`Err(io::Error::new(ErrorKind::Other, js_err.as_string().unwrap_or_default()))`. -/
def open_import_fallback (load_callback : HostLoader)
    (file_name : String) : Option (Except IoError String) :=
  match load_callback file_name with
  | .error _ => none
  | .ok promise =>
      some (match promise with
        | .ok js_ok => .ok (js_ok.as_string.getD "")
        | .error js_err => .error ⟨IoErrorKind.other, js_err.as_string.getD ""⟩)

/-- The shape of the file-loader hook installed on the configuration. -/
def FileLoader : Type := String → Option (Except IoError String)

/-- The shape of the import-resolution hook installed on the configuration. -/
def ResolveFn : Type := String → Option String

/-- `sixtyfps_interpreter::CompilerConfiguration`: the only part the binding
touches is the optional custom file-loading pair (loader, resolver). -/
structure CompilerConfiguration where
  file_loader : Option (FileLoader × ResolveFn)

/-- `CompilerConfiguration::new()`: no custom file loading installed. -/
def CompilerConfiguration.new : CompilerConfiguration := ⟨none⟩

/-- `CompilerConfiguration::with_file_loader(loader, resolver)`. -/
def CompilerConfiguration.with_file_loader (c : CompilerConfiguration)
    (loader : FileLoader) (resolver : ResolveFn) : CompilerConfiguration :=
  { c with file_loader := some (loader, resolver) }

/-- One engine diagnostic, with the accessors the binding uses:
`message()`, `source_file()`, `line_column()`, `level() as i8`. -/
structure Diagnostic where
  message : String
  source_file : Option String
  line : Nat
  column : Nat
  level : Int
deriving DecidableEq, Repr

/-- Modelled from the spec: the engine's textual rendering (`Display`) of a
`Diagnostic` — engine code of this repository outside the binding file. The
binding writes `"{}:{}:{}"` with the file name, the line and the diagnostic
itself; per the spec the combined string carries the file, line and column of
a diagnostic, so the rendering is modelled as the column followed by the
message. -/
def Diagnostic.display (d : Diagnostic) : String :=
  toString d.column ++ ": " ++ d.message

/-- The structured error object the binding builds for one diagnostic, with
the `message`, `lineNumber`, `columnNumber`, `fileName` and `level`
properties set via `Reflect::set`. -/
structure DiagEntry where
  message : String
  lineNumber : Nat
  columnNumber : Nat
  fileName : String
  level : Int
deriving DecidableEq, Repr

/-- The per-diagnostic entry: `fileName` is the source file's string, or the
empty string when the diagnostic carries no source file
(`map_or(String::new(), ...)`); `level` is `d.level() as i8`. -/
def diagEntry (d : Diagnostic) : DiagEntry :=
  { message := d.message
    lineNumber := d.line
    columnNumber := d.column
    fileName := d.source_file.getD ""
    level := d.level }

/-- The piece `write!(&mut error_as_string, "{}:{}:{}", filename, line, d)`
appends for one diagnostic. -/
def diagSegment (d : Diagnostic) : String :=
  (d.source_file.getD "") ++ ":" ++ toString d.line ++ ":" ++ d.display

/-- The `error_as_string` accumulation loop: before each segment a `"\n"` is
pushed unless the accumulator is still empty. -/
def buildCombined (diags : List Diagnostic) : String :=
  diags.foldl
    (fun acc d => (if acc.isEmpty then acc else acc ++ "\n") ++ diagSegment d)
    ""

/-- The trailing part of the combined string contributed by the diagnostics
after the first: each one preceded by a single `"\n"`. -/
def restSpec : List Diagnostic → String
  | [] => ""
  | d :: t => "\n" ++ diagSegment d ++ restSpec t

/-- The combined string, written as the segments of the diagnostics in order
separated by single newline characters. -/
def combinedSpec : List Diagnostic → String
  | [] => ""
  | [d] => diagSegment d
  | d :: t => diagSegment d ++ "\n" ++ combinedSpec t

/-- The aggregate `js_sys::Error` the binding rejects with: its `message` is
the combined string, its `errors` property the structured array. -/
structure JsError where
  message : String
  errors : List DiagEntry
deriving DecidableEq, Repr

/-- The opaque engine-produced compiled component. -/
structure ComponentDefinition where
  tag : Nat
deriving DecidableEq, Repr

/-- `WrappedCompiledComp`: the opaque handle returned to the host. -/
structure WrappedCompiledComp where
  comp : ComponentDefinition
deriving DecidableEq, Repr

/-- The external engine entry point
`ComponentDefinition::from_source(source, base_url, config)`, awaited:
a pair of an optional component and the diagnostics. Theorems quantify over
it since it lives outside this file. -/
def CompileEngine : Type :=
  String → String → CompilerConfiguration →
    Option ComponentDefinition × List Diagnostic

/-- The configuration `compile_from_string` passes to the engine: the custom
file loader is installed only when BOTH callbacks are supplied
(`if let (Some(resolver_callback), Some(load_callback)) = ...`). -/
def makeConfig (optional_resolve_import_callback : Option HostResolver)
    (optional_import_callback : Option HostLoader) : CompilerConfiguration :=
  match optional_resolve_import_callback, optional_import_callback with
  | some resolver_callback, some load_callback =>
      CompilerConfiguration.new.with_file_loader
        (open_import_fallback load_callback)
        (resolve_import_fallback resolver_callback)
  | _, _ => CompilerConfiguration.new

/-- `compile_from_string`: build the configuration, run the engine, and
either wrap the component or flatten the diagnostics into the aggregate
error. -/
def compile_from_string (engine : CompileEngine) (source : String)
    (base_url : String)
    (optional_resolve_import_callback : Option HostResolver)
    (optional_import_callback : Option HostLoader) :
    Except JsError WrappedCompiledComp :=
  let config :=
    makeConfig optional_resolve_import_callback optional_import_callback
  match engine source base_url config with
  | (some c, _) => .ok ⟨c⟩
  | (none, diags) =>
      .error { message := buildCombined diags, errors := diags.map diagEntry }

/-! ### Font registration (`register_font`) -/

/-- `web_sys::RequestMode`; the binding always selects `Cors`. -/
inductive RequestMode where
  | cors : RequestMode
  | noCors : RequestMode
  | sameOrigin : RequestMode
deriving DecidableEq, Repr

/-- `web_sys::RequestInit` after `opts.method("GET"); opts.mode(Cors)`. -/
structure RequestInit where
  method : String
  mode : RequestMode
deriving DecidableEq, Repr

/-- A constructed `web_sys::Request`. -/
structure Request where
  url : String
  init : RequestInit
deriving DecidableEq, Repr

/-- A `web_sys::Response`. `array_buffer` models `resp.array_buffer()?`
(outer `Except`: the synchronous throw) followed by awaiting the returned
promise (inner `Except`: rejection or the body bytes). -/
structure Response where
  array_buffer : Except JsValue (Except JsValue (List Nat))

/-- The browser environment `register_font` talks to: request construction
(`Request::new_with_str_and_init`, which can throw on a bad URL) and
`window.fetch`, whose awaited promise rejects on network failure. -/
structure FontEnv where
  new_request : String → RequestInit → Except JsValue Request
  fetch : Request → Except JsValue Response

/-- Modelled from the spec: the engine primitive
`sixtyfps_interpreter::register_font_from_memory` — engine code of this
repository outside the binding file. Per the spec it adds an entry to the
process-wide font registry for valid binary font data and signals an error
for malformed data, with no partial registration; validity is an abstract
predicate on the bytes. -/
def register_font_from_memory (validFont : List Nat → Bool)
    (registry : List (List Nat)) (data : List Nat) :
    Except String (List (List Nat)) :=
  if validFont data then .ok (data :: registry) else .error "invalid font data"

/-- How one invocation of `register_font` ends: resolved (`ok`), rejected
with a propagated `JsValue` (every `?` in the body), or a Rust panic
(the `unwrap` on the engine's font-registration result). -/
inductive FontOutcome where
  | ok : FontOutcome
  | rejected : JsValue → FontOutcome
  | panicked : FontOutcome
deriving DecidableEq, Repr

/-- `register_font(url)`: build a GET/Cors request, fetch it, read the body
bytes, and hand them to the engine's font registration, unwrapping its
result. Returns the outcome together with the font registry after the call. -/
def register_font (validFont : List Nat → Bool) (env : FontEnv)
    (registry : List (List Nat)) (url : String) :
    FontOutcome × List (List Nat) :=
  let opts : RequestInit := { method := "GET", mode := RequestMode.cors }
  match env.new_request url opts with
  | .error e => (.rejected e, registry)
  | .ok request =>
      match env.fetch request with
      | .error e => (.rejected e, registry)
      | .ok resp =>
          match resp.array_buffer with
          | .error e => (.rejected e, registry)
          | .ok (.error e) => (.rejected e, registry)
          | .ok (.ok data) =>
              match register_font_from_memory validFont registry data with
              | .error _ => (.panicked, registry)
              | .ok registry2 => (.ok, registry2)

/-! ### Auxiliary notions and concrete fixtures -/

/-- `needle` occurs contiguously inside `hay`. -/
def containsSub (hay needle : String) : Prop :=
  ∃ pre post, hay = pre ++ needle ++ post

/-- A host resolver that always returns the JS string `"lib.60"`. -/
def rcW : HostResolver := fun _ => Except.ok (JsValue.str "lib.60")

/-- A host loader whose promise resolves with content for `"good.60"` and
rejects with `"denied"` otherwise. -/
def lcW : HostLoader := fun fn =>
  if fn = "good.60" then Except.ok (Except.ok (JsValue.str "content"))
  else Except.ok (Except.error (JsValue.str "denied"))

/-- A host resolver whose underlying JS function throws on every call. -/
def rcThrow : HostResolver := fun _ => Except.error JsValue.undefined

/-- A host loader whose underlying JS function throws synchronously. -/
def lcThrow : HostLoader := fun _ => Except.error (JsValue.str "TypeError")

/-- An engine that produces a component (tag 7) with no diagnostics. -/
def engOk : CompileEngine := fun _ _ _ => (some ⟨7⟩, [])

/-- An engine that produces a component (tag 3) alongside a warning. -/
def engWarn : CompileEngine := fun _ _ _ =>
  (some ⟨3⟩, [⟨"deprecated", some "app.60", 9, 2, 1⟩])

/-- A diagnostic as for a syntax error: message, file, line 3, column 14,
level 0. -/
def dSyn : Diagnostic := ⟨"unexpected token", some "main.60", 3, 14, 0⟩

/-- An engine that fails with the single syntax-error diagnostic `dSyn`. -/
def engSyn : CompileEngine := fun _ _ _ => (none, [dSyn])

/-- A diagnostic that carries no source file. -/
def dNoFile : Diagnostic := ⟨"global error", none, 1, 1, 0⟩

/-- An engine that fails with a file-less diagnostic followed by `dSyn`. -/
def engNoFile : CompileEngine := fun _ _ _ => (none, [dNoFile, dSyn])

/-- A browser environment whose fetch promise always rejects. -/
def envDown : FontEnv :=
  { new_request := fun url init => Except.ok { url := url, init := init }
    fetch := fun _ => Except.error (JsValue.str "NetworkError") }

/-- A browser environment that serves the two bytes `[0, 1]` as the body. -/
def envBytes : FontEnv :=
  { new_request := fun url init => Except.ok { url := url, init := init }
    fetch := fun _ =>
      Except.ok { array_buffer := Except.ok (Except.ok [0, 1]) } }

/-! ### Bridge lemmas about the combined error string -/

/-- Appending cannot erase a nonempty left part. -/
theorem append_ne_empty_left (a b : String) (h : a ≠ "") : a ++ b ≠ "" := by
  intro hc
  apply h
  have hl := congrArg String.length hc
  simp only [String.length_append] at hl
  have : a.length = 0 := by
    have : String.length "" = 0 := rfl
    omega
  cases a with
  | mk dat =>
      cases dat with
      | nil => rfl
      | cons c cs => simp [String.length, List.length] at this

/-- A diagnostic's segment always contains at least the two `':'`
separators, hence is nonempty. -/
theorem diagSegment_ne_empty (d : Diagnostic) : diagSegment d ≠ "" := by
  unfold diagSegment
  intro hc
  have hl := congrArg String.length hc
  simp only [String.length_append] at hl
  have h1 : String.length ":" = 1 := rfl
  have h0 : String.length "" = 0 := rfl
  omega

/-- Once the accumulator is nonempty, the error-string loop appends a
newline-prefixed segment for every remaining diagnostic. -/
theorem foldl_combined_of_ne (t : List Diagnostic) :
    ∀ acc : String, acc ≠ "" →
      t.foldl
        (fun acc d =>
          (if acc.isEmpty then acc else acc ++ "\n") ++ diagSegment d)
        acc = acc ++ restSpec t := by
  induction t with
  | nil => intro acc _; simp [restSpec]
  | cons d t ih =>
      intro acc hacc
      have hne : acc.isEmpty = false := by
        cases hie : acc.isEmpty with
        | false => rfl
        | true => exact absurd ((String.isEmpty_iff acc).1 hie) hacc
      simp only [List.foldl_cons, hne, Bool.false_eq_true, if_false]
      rw [ih (acc ++ "\n" ++ diagSegment d)
        (append_ne_empty_left _ _ (append_ne_empty_left _ _ hacc))]
      simp [restSpec, String.append_assoc]

/-- The head segment followed by the newline-prefixed rest is exactly the
newline-intercalated form. -/
theorem combinedSpec_cons (d : Diagnostic) (t : List Diagnostic) :
    combinedSpec (d :: t) = diagSegment d ++ restSpec t := by
  induction t generalizing d with
  | nil => simp [combinedSpec, restSpec]
  | cons d2 t2 ih =>
      simp only [combinedSpec, restSpec]
      rw [ih d2]
      simp [String.append_assoc]

/-- The error-string loop of `compile_from_string` produces the segments of
the diagnostics separated by single newline characters. -/
theorem buildCombined_eq_combinedSpec (diags : List Diagnostic) :
    buildCombined diags = combinedSpec diags := by
  cases diags with
  | nil => rfl
  | cons d t =>
      unfold buildCombined
      simp only [List.foldl_cons]
      have h0 : (if String.isEmpty "" then "" else "" ++ "\n") ++ diagSegment d
          = diagSegment d := by
        rw [show String.isEmpty "" = true from rfl]
        simp
      rw [h0, foldl_combined_of_ne t (diagSegment d) (diagSegment_ne_empty d),
        combinedSpec_cons]

/-! ### Claim theorems -/

/-- C1: `compile_from_string` returns a handle exactly when the engine
produces a component; otherwise it fails with one aggregate error carrying
the combined string and a structured list with one entry per returned
diagnostic, each entry holding message, line, column, file name and severity
level — never both a handle and an error, never partial success. -/
theorem compile_from_string_dichotomy
    (engine : CompileEngine) (source base_url : String)
    (orc : Option HostResolver) (olc : Option HostLoader)
    (copt : Option ComponentDefinition) (diags : List Diagnostic)
    (h : engine source base_url (makeConfig orc olc) = (copt, diags)) :
    (∀ c, copt = some c →
      compile_from_string engine source base_url orc olc = .ok ⟨c⟩) ∧
    (copt = none →
      compile_from_string engine source base_url orc olc =
        .error { message := buildCombined diags
                 errors := diags.map diagEntry } ∧
      (diags.map diagEntry).length = diags.length ∧
      ∀ d ∈ diags, diagEntry d =
        { message := d.message, lineNumber := d.line,
          columnNumber := d.column, fileName := d.source_file.getD "",
          level := d.level }) := by
  constructor
  · intro c hc
    subst hc
    simp [compile_from_string, h]
  · intro hc
    subst hc
    refine ⟨by simp [compile_from_string, h], by simp, ?_⟩
    intro d _
    rfl

/-- Witness for C1, at an engine that succeeds with component tag 7. -/
theorem compile_from_string_dichotomy_witness :
    compile_from_string engOk "x" "base" none none = .ok ⟨⟨7⟩⟩ :=
  (compile_from_string_dichotomy engOk "x" "base" none none
    (some ⟨7⟩) [] rfl).1 ⟨7⟩ rfl

/-- C5: for source the engine compiles to a component with no import
callbacks supplied, `compile_from_string` returns the wrapped handle and no
error. -/
theorem compile_valid_source_no_callbacks
    (engine : CompileEngine) (source base_url : String)
    (c : ComponentDefinition) (diags : List Diagnostic)
    (h : engine source base_url (makeConfig none none) = (some c, diags)) :
    compile_from_string engine source base_url none none = .ok ⟨c⟩ := by
  simp [compile_from_string, h]

/-- Witness for C5, at an engine that succeeds with a warning diagnostic. -/
theorem compile_valid_source_no_callbacks_witness :
    compile_from_string engWarn "y" "base" none none = .ok ⟨⟨3⟩⟩ :=
  compile_valid_source_no_callbacks engWarn "y" "base" ⟨3⟩
    [⟨"deprecated", some "app.60", 9, 2, 1⟩] rfl

/-- C4: when exactly one of the two import callbacks is supplied, no custom
file-loading configuration is installed on the configuration passed to the
engine, and compiling behaves exactly as with no callbacks at all. -/
theorem single_callback_uses_default_config
    (rc : HostResolver) (lc : HostLoader) :
    (makeConfig (some rc) none).file_loader = none ∧
    (makeConfig none (some lc)).file_loader = none ∧
    (∀ engine source base_url,
      compile_from_string engine source base_url (some rc) none =
        compile_from_string engine source base_url none none) ∧
    (∀ engine source base_url,
      compile_from_string engine source base_url none (some lc) =
        compile_from_string engine source base_url none none) := by
  refine ⟨rfl, rfl, ?_, ?_⟩ <;> intro engine source base_url <;> rfl

/-- C3: when both callbacks are supplied, the installed configuration is the
adapted pair, the resolver's returned string reaches the engine verbatim,
and the loader's resolved content (or propagated rejection) is exactly what
the engine receives for that file. -/
theorem both_callbacks_verbatim (rc : HostResolver) (lc : HostLoader)
    (fn1 fn2 fn3 p content emsg : String)
    (h1 : rc fn1 = .ok (JsValue.str p))
    (h2 : lc fn2 = .ok (.ok (JsValue.str content)))
    (h3 : lc fn3 = .ok (.error (JsValue.str emsg))) :
    (makeConfig (some rc) (some lc)).file_loader =
      some (open_import_fallback lc, resolve_import_fallback rc) ∧
    resolve_import_fallback rc fn1 = some p ∧
    open_import_fallback lc fn2 = some (.ok content) ∧
    open_import_fallback lc fn3 =
      some (.error ⟨IoErrorKind.other, emsg⟩) := by
  refine ⟨rfl, ?_, ?_, ?_⟩
  · simp [resolve_import_fallback, h1, Except.toOption, JsValue.as_string]
  · simp [open_import_fallback, h2, JsValue.as_string]
  · simp [open_import_fallback, h3, JsValue.as_string]

/-- Witness for C3, at the concrete resolver `rcW` and loader `lcW`. -/
theorem both_callbacks_verbatim_witness :
    (makeConfig (some rcW) (some lcW)).file_loader =
      some (open_import_fallback lcW, resolve_import_fallback rcW) ∧
    resolve_import_fallback rcW "a.60" = some "lib.60" ∧
    open_import_fallback lcW "good.60" = some (.ok "content") ∧
    open_import_fallback lcW "bad.60" =
      some (.error ⟨IoErrorKind.other, "denied"⟩) :=
  both_callbacks_verbatim rcW lcW "a.60" "good.60" "bad.60" "lib.60"
    "content" "denied" rfl (by simp [lcW]) (by simp [lcW])

/-- C8: when the host resolver throws, or returns a value that is not a JS
string, the adapted resolver yields `none`, so the engine falls back to its
default resolution for that file. -/
theorem resolver_throw_or_nonstring_none (rc : HostResolver) (fn : String)
    (h : (∃ e, rc fn = .error e) ∨
      (∃ v, rc fn = .ok v ∧ v.as_string = none)) :
    resolve_import_fallback rc fn = none := by
  rcases h with ⟨e, he⟩ | ⟨v, hv, hs⟩
  · simp [resolve_import_fallback, he, Except.toOption]
  · simp [resolve_import_fallback, hv, hs, Except.toOption]

/-- Witness for C8, at a resolver that always throws. -/
theorem resolver_throw_or_nonstring_none_witness :
    resolve_import_fallback rcThrow "app.60" = none :=
  resolver_throw_or_nonstring_none rcThrow "app.60"
    (Or.inl ⟨JsValue.undefined, rfl⟩)

/-- C9: when the host loader throws synchronously, the adapted loader's
`unwrap` of the call result panics (`none`) instead of delivering an I/O
error to the engine; the witness shows this branch reachable. -/
theorem loader_sync_throw_panics (lc : HostLoader) (fn : String)
    (e : JsValue) (h : lc fn = .error e) :
    open_import_fallback lc fn = none := by
  simp [open_import_fallback, h]

/-- Witness for C9, at a loader whose JS function throws a `TypeError`. -/
theorem loader_sync_throw_panics_witness :
    open_import_fallback lcThrow "app.60" = none :=
  loader_sync_throw_panics lcThrow "app.60" (JsValue.str "TypeError") rfl

/-- C2: when the engine returns no component and a non-empty diagnostic
list, the aggregate error's structured list has length at least 1 and the
combined string contains the file, line and column of at least one entry
(the first). -/
theorem syntax_error_aggregate (engine : CompileEngine)
    (source base_url : String) (orc : Option HostResolver)
    (olc : Option HostLoader) (d : Diagnostic) (t : List Diagnostic)
    (h : engine source base_url (makeConfig orc olc) = (none, d :: t)) :
    compile_from_string engine source base_url orc olc =
      .error { message := buildCombined (d :: t)
               errors := (d :: t).map diagEntry } ∧
    1 ≤ ((d :: t).map diagEntry).length ∧
    containsSub (buildCombined (d :: t)) (d.source_file.getD "") ∧
    containsSub (buildCombined (d :: t)) (toString d.line) ∧
    containsSub (buildCombined (d :: t)) (toString d.column) := by
  refine ⟨by simp [compile_from_string, h], by simp, ?_, ?_, ?_⟩
  · refine ⟨"", ":" ++ toString d.line ++ ":" ++ d.display ++ restSpec t, ?_⟩
    rw [buildCombined_eq_combinedSpec, combinedSpec_cons]
    simp only [diagSegment, String.append_assoc, String.empty_append]
  · refine ⟨(d.source_file.getD "") ++ ":",
      ":" ++ d.display ++ restSpec t, ?_⟩
    rw [buildCombined_eq_combinedSpec, combinedSpec_cons]
    simp only [diagSegment, String.append_assoc]
  · refine ⟨(d.source_file.getD "") ++ ":" ++ toString d.line ++ ":",
      ": " ++ d.message ++ restSpec t, ?_⟩
    rw [buildCombined_eq_combinedSpec, combinedSpec_cons]
    simp only [diagSegment, Diagnostic.display, String.append_assoc]

/-- Witness for C2, at an engine that fails with the syntax-error
diagnostic `dSyn` (file `main.60`, line 3, column 14). -/
theorem syntax_error_aggregate_witness :
    compile_from_string engSyn "x" "base" none none =
      .error { message := buildCombined [dSyn]
               errors := [dSyn].map diagEntry } ∧
    1 ≤ ([dSyn].map diagEntry).length ∧
    containsSub (buildCombined [dSyn]) "main.60" ∧
    containsSub (buildCombined [dSyn]) (toString (3 : Nat)) ∧
    containsSub (buildCombined [dSyn]) (toString (14 : Nat)) :=
  syntax_error_aggregate engSyn "x" "base" none none dSyn [] rfl

/-- C10: a diagnostic with no source file yields a structured entry whose
`fileName` is the empty string, its segment of the combined string is built
from that empty file name, and the combined string is the segments joined by
single newline characters. -/
theorem missing_file_entry_and_newlines (engine : CompileEngine)
    (source base_url : String) (orc : Option HostResolver)
    (olc : Option HostLoader) (diags : List Diagnostic) (d : Diagnostic)
    (h : engine source base_url (makeConfig orc olc) = (none, diags))
    (hd : d ∈ diags) (hnf : d.source_file = none) :
    compile_from_string engine source base_url orc olc =
      .error { message := buildCombined diags
               errors := diags.map diagEntry } ∧
    (diagEntry d).fileName = "" ∧
    diagEntry d ∈ diags.map diagEntry ∧
    diagSegment d = "" ++ ":" ++ toString d.line ++ ":" ++ d.display ∧
    buildCombined diags = combinedSpec diags := by
  refine ⟨by simp [compile_from_string, h], ?_,
    List.mem_map_of_mem _ hd, ?_, buildCombined_eq_combinedSpec diags⟩
  · simp [diagEntry, hnf]
  · simp [diagSegment, hnf]

/-- Witness for C10, at an engine failing with a file-less diagnostic
followed by `dSyn`. -/
theorem missing_file_entry_and_newlines_witness :
    compile_from_string engNoFile "x" "base" none none =
      .error { message := buildCombined [dNoFile, dSyn]
               errors := [dNoFile, dSyn].map diagEntry } ∧
    (diagEntry dNoFile).fileName = "" ∧
    diagEntry dNoFile ∈ [dNoFile, dSyn].map diagEntry ∧
    diagSegment dNoFile =
      "" ++ ":" ++ toString dNoFile.line ++ ":" ++ dNoFile.display ∧
    buildCombined [dNoFile, dSyn] = combinedSpec [dNoFile, dSyn] :=
  missing_file_entry_and_newlines engNoFile "x" "base" none none
    [dNoFile, dSyn] dNoFile rfl (by simp) rfl

/-- C6: when the fetch promise rejects (unreachable URL), `register_font`
ends rejected with that error and the font registry is unchanged — no font
is registered on the error path. -/
theorem register_font_unreachable_url (validFont : List Nat → Bool)
    (env : FontEnv) (registry : List (List Nat)) (url : String)
    (request : Request) (e : JsValue)
    (hreq : env.new_request url
      { method := "GET", mode := RequestMode.cors } = .ok request)
    (hfetch : env.fetch request = .error e) :
    register_font validFont env registry url = (.rejected e, registry) := by
  simp [register_font, hreq, hfetch]

/-- Witness for C6, at a browser environment whose fetch always rejects. -/
theorem register_font_unreachable_url_witness :
    register_font (fun _ => true) envDown [] "https://fonts.example/a.ttf" =
      (.rejected (JsValue.str "NetworkError"), []) :=
  register_font_unreachable_url (fun _ => true) envDown []
    "https://fonts.example/a.ttf"
    { url := "https://fonts.example/a.ttf"
      init := { method := "GET", mode := RequestMode.cors } }
    (JsValue.str "NetworkError") rfl rfl

/-- C7: when the fetch succeeds but the body is malformed font data, the
engine's font-registration error is unwrapped, so `register_font` panics
(fatal, unhandled) and the registry is unchanged. -/
theorem register_font_malformed_data_panics (validFont : List Nat → Bool)
    (env : FontEnv) (registry : List (List Nat)) (url : String)
    (request : Request) (resp : Response) (data : List Nat)
    (hreq : env.new_request url
      { method := "GET", mode := RequestMode.cors } = .ok request)
    (hfetch : env.fetch request = .ok resp)
    (hbuf : resp.array_buffer = .ok (.ok data))
    (hbad : validFont data = false) :
    register_font validFont env registry url = (.panicked, registry) := by
  simp [register_font, hreq, hfetch, hbuf, register_font_from_memory, hbad]

/-- Witness for C7, at an environment serving bytes `[0, 1]` that the font
validity predicate rejects. -/
theorem register_font_malformed_data_panics_witness :
    register_font (fun _ => false) envBytes [] "https://fonts.example/b.ttf" =
      (.panicked, []) :=
  register_font_malformed_data_panics (fun _ => false) envBytes []
    "https://fonts.example/b.ttf"
    { url := "https://fonts.example/b.ttf"
      init := { method := "GET", mode := RequestMode.cors } }
    { array_buffer := Except.ok (Except.ok [0, 1]) } [0, 1] rfl rfl rfl rfl

end SixtyfpsWasm
